import Mathlib

/-!
Shallow embedding of the AKovalevich/streamdeck Go library (USB device layer,
protocol encoder, panel geometry, event loop) and proofs of the specification
claims about it.  Every definition is translated directly from the Go source;
machine bytes are modelled as Nat with explicit reduction mod 256.
-/

set_option maxRecDepth 4000

/-! ## Constants (from the Go source) -/

/-- NumButtons is the total amount of buttons located on the Stream Deck. -/
def numButtons : Nat := 15

/-- ButtonSize is the size of a button (in pixel). -/
def buttonSize : Nat := 72

/-- NumButtonColumns is the number of columns on the Stream Deck. -/
def numButtonColumns : Nat := 5

/-- NumButtonRows is the number of button rows on the Stream Deck. -/
def numButtonRows : Nat := 3

/-- Spacer is the spacing distance (in pixel) of two buttons. -/
def spacer : Nat := 19

/-- PanelWidth is the total screen width of the Stream Deck (including spacers). -/
def panelWidth : Nat := numButtonColumns * buttonSize + spacer * (numButtonColumns - 1)

/-- PanelHeight is the total screen height of the Stream Deck (including spacers). -/
def panelHeight : Nat := numButtonRows * buttonSize + spacer * (numButtonRows - 1)

/-- Amount of pixels sent to the Stream Deck in the first message. -/
def numFirstMsgPixels : Nat := 2583

/-- Amount of pixels sent to the Stream Deck in the second message. -/
def numSecondMsgPixels : Nat := 2601

/-- Stream Deck endpoint buffer size used by the Serve read loop. -/
def outEndpointBufferSize : Nat := 17

/-! ## Errors and button state -/

/-- Errors produced by the StreamDeck layer, mirroring the fmt.Errorf calls. -/
inductive SDError where
  | invalidKeyIndex
  | invalidColorRange
  deriving DecidableEq, Repr

/-- BtnState is a type representing the button state (Go: BtnPressed, BtnReleased). -/
inductive BtnState where
  | pressed
  | released
  deriving DecidableEq, Repr

/-- intToButtonState translates a report byte: 0 is released, otherwise pressed. -/
def intToButtonState (i : Nat) : BtnState :=
  if i = 0 then BtnState.released else BtnState.pressed

/-- checkValidKeyIndex checks that the keyIndex is valid (Go source:
rejects keyIndex < 0 or keyIndex > 15). -/
def checkValidKeyIndex (keyIndex : Int) : Option SDError :=
  if keyIndex < 0 ∨ keyIndex > 15 then some SDError.invalidKeyIndex else none

/-- checkRGB returns an error in case of an invalid color (8 bit). -/
def checkRGB (value : Int) : Option SDError :=
  if value < 0 ∨ value > 255 then some SDError.invalidColorRange else none

/-! ## Images -/

/-- A Go image.Image as seen by FillImage: bounds plus the pixel accessor.
The accessor returns the (r, g, b) channels that the RGBA method yields
(16-bit values; the encoder truncates each to a byte). -/
structure GoImage where
  width : Nat
  height : Nat
  pix : Nat → Nat → Nat × Nat × Nat

/-- Resize collaborator (gift library, external to the repository): returns an
image with the requested dimensions, pixel data supplied by the library. -/
def resizeModel (img : GoImage) (w h : Nat) : GoImage :=
  { width := w, height := h, pix := img.pix }

/-- The rescale step at the top of FillImage: the picture is resized to
72 x 72 exactly when its width differs from ButtonSize (the height is
not examined by the Go code). -/
def fillImageScaled (img : GoImage) : GoImage :=
  if img.width ≠ buttonSize then resizeModel img buttonSize buttonSize else img

/-! ## Protocol encoder (FillImage body) -/

/-- The three bytes the FillImage loop appends for iteration (row, k):
it reads the pixel At(line, row) with line = 71 - k (the column counted
from the right) and appends byte r, byte b, byte g in that order. -/
def pixelBytes (img : GoImage) (row k : Nat) : List Nat :=
  [(img.pix (71 - k) row).1 % 256,
   (img.pix (71 - k) row).2.2 % 256,
   (img.pix (71 - k) row).2.1 % 256]

/-- The linear pixel buffer built by FillImage: rows top to bottom, and inside
each row the column index runs from 71 down to 0. -/
def encodeImage (img : GoImage) : List Nat :=
  (List.range buttonSize).flatMap (fun row =>
    (List.range buttonSize).flatMap (fun k => pixelBytes img row k))

/-- Page 1 payload: imgBuf[0 : numFirstMsgPixels*3]. -/
def fillImagePage1 (img : GoImage) : List Nat :=
  (encodeImage img).take (numFirstMsgPixels * 3)

/-- Page 2 payload: imgBuf[numFirstMsgPixels*3 :]. -/
def fillImagePage2 (img : GoImage) : List Nat :=
  (encodeImage img).drop (numFirstMsgPixels * 3)

/-- The fixed 70-byte header of the first wire message; byte 5 carries
byte(btnIndex + 1). -/
def msg1Header (b : Nat) : List Nat :=
  [0x02, 0x01, 0x01, 0x00, 0x00, (b + 1) % 256, 0x00, 0x00, 0x00, 0x00,
   0x00, 0x00, 0x00, 0x00, 0x00, 0x00, 0x42, 0x4D, 0xF6, 0x3C, 0x00, 0x00, 0x00,
   0x00, 0x00, 0x00, 0x36, 0x00, 0x00, 0x00, 0x28, 0x00, 0x00, 0x00, 0x48, 0x00,
   0x00, 0x00, 0x48, 0x00, 0x00, 0x00, 0x01, 0x00, 0x18, 0x00, 0x00, 0x00, 0x00,
   0x00, 0xC0, 0x3C, 0x00, 0x00, 0xC4, 0x0E, 0x00, 0x00, 0xC4, 0x0E, 0x00, 0x00,
   0x00, 0x00, 0x00, 0x00, 0x00, 0x00, 0x00, 0x00]

/-- The fixed 18-byte header of the second wire message; byte 5 carries
byte(btnIndex + 1). -/
def msg2Header (b : Nat) : List Nat :=
  [0x02, 0x01, 0x02, 0x00, 0x01, (b + 1) % 256, 0x00, 0x00, 0x00, 0x00,
   0x00, 0x00, 0x00, 0x00, 0x00, 0x00, 0x00, 0x00]

/-- writeMsg1: header plus the page 1 payload, handed to device.write. -/
def writeMsg1Bytes (b : Nat) (payload : List Nat) : List Nat :=
  msg1Header b ++ payload

/-- writeMsg2: header plus the page 2 payload, handed to device.write. -/
def writeMsg2Bytes (b : Nat) (payload : List Nat) : List Nat :=
  msg2Header b ++ payload

/-- FillImage as a trace of transport writes: validate the index, rescale,
encode, then write message 1 and message 2.  The first component lists the
byte strings handed to the transport, the second the returned error. -/
def fillImageTrace (btnIndex : Int) (img : GoImage) :
    List (List Nat) × Option SDError :=
  match checkValidKeyIndex btnIndex with
  | some e => ([], some e)
  | none =>
    let scaled := fillImageScaled img
    ([writeMsg1Bytes btnIndex.toNat (fillImagePage1 scaled),
      writeMsg2Bytes btnIndex.toNat (fillImagePage2 scaled)], none)

/-- The solid 72 x 72 image FillColor builds from color.RGBA{r, g, b, 0}; the
RGBA accessor of that color yields each 8-bit channel value times 0x101. -/
def uniformImage (r g b : Nat) : GoImage :=
  { width := 72, height := 72, pix := fun _ _ => (r * 257, g * 257, b * 257) }

/-- FillColor as a trace of transport writes: validate the three channels,
build the uniform image, delegate to FillImage. -/
def fillColorTrace (btnIndex r g b : Int) : List (List Nat) × Option SDError :=
  match checkRGB r with
  | some e => ([], some e)
  | none =>
    match checkRGB g with
    | some e => ([], some e)
    | none =>
      match checkRGB b with
      | some e => ([], some e)
      | none => fillImageTrace btnIndex (uniformImage r.toNat g.toNat b.toNat)

/-- ClearBtn: validate the index, then FillColor with black. -/
def clearBtnTrace (btnIndex : Int) : List (List Nat) × Option SDError :=
  match checkValidKeyIndex btnIndex with
  | some e => ([], some e)
  | none => fillColorTrace btnIndex 0 0 0

/-! ## ClearAllBtns, Close and the constructor -/

/-- ClearAllBtns: the loop for i := 14; i >= 0; i-- calling ClearBtn(i) and
ignoring its result.  The per-button clear outcome is abstracted as the
oracle f; the value records the calls made and what each returned, none of
which the Go function exposes (its return type is empty). -/
def clearAllBtns (f : Int → Except String Unit) : List (Int × Except String Unit) :=
  ((List.range numButtons).reverse).map (fun i => ((i : Int), f (i : Int)))

/-- Close: ClearAllBtns first, then device.Close; only the device close
result is returned. -/
def closeTrace (f : Int → Except String Unit) (devClose : Except String Unit) :
    List (Int × Except String Unit) × Except String Unit :=
  (clearAllBtns f, devClose)

/-- Outcome of a Go call that can return a value, return an error, or panic. -/
inductive GoResult (α : Type) where
  | ok (a : α)
  | goError (msg : String)
  | panic (msg : String)
  deriving DecidableEq, Repr

/-- The USBDevice right after NewUSBDevice: no open handle yet, disconnected.
The handle, when present, carries the serial number it would report. -/
structure USBDeviceH where
  deviceHandle : Option String
  connected : Bool

/-- NewUSBDevice(productID, vendorID): connected false, no handle opened. -/
def newUSBDevice : USBDeviceH := { deviceHandle := none, connected := false }

/-- GetSerialNumber calls device.SerialNumber() on the stored gousb handle;
when the handle is nil (no Connect has happened) this dereferences nil. -/
def getSerialNumber (d : USBDeviceH) : GoResult String :=
  match d.deviceHandle with
  | none => GoResult.panic ("nil pointer dereference")
  | some s => GoResult.ok s

/-- NewStreamDeck: reject more than one serial, then (when one serial is
given) read the serial from the freshly allocated device and compare, then
Connect, set every button state to released and run ClearAllBtns.  The connect outcome
is abstracted as connectRes (none meaning success); the successful result
carries the ClearAllBtns call trace under the clear oracle f. -/
def newStreamDeck (connectRes : Option String) (f : Int → Except String Unit)
    (serial : List String) : GoResult (List (Int × Except String Unit)) :=
  if serial.length > 1 then GoResult.goError ("only <= 1 serial numbers must be provided")
  else
    match serial with
    | [s] =>
      (match getSerialNumber newUSBDevice with
       | GoResult.panic m => GoResult.panic m
       | GoResult.goError m => GoResult.goError m
       | GoResult.ok sn =>
         if sn ≠ s then GoResult.goError ("no stream deck device found with that serial number")
         else
           match connectRes with
           | some e => GoResult.goError e
           | none => GoResult.ok (clearAllBtns f))
    | _ =>
      match connectRes with
      | some e => GoResult.goError e
      | none => GoResult.ok (clearAllBtns f)

/-! ## USB device write and read -/

/-- Result of USBDevice.write. -/
inductive WriteResult where
  | ok (n : Nat)
  | transportError (e : String)
  | nilPanic

/-- The USB device as the byte-level transport sees it: the connected flag
and the OUT endpoint (none until Connect has populated it); an endpoint is
its transfer behaviour. -/
structure USBDeviceW where
  connected : Bool
  outEndpoint : Option (List Nat → Except String Nat)

/-- USBDevice.write: return usbDevice.outEndpoint.Write(data) - the transfer
is forwarded unconditionally; the connected flag is never consulted, and a
nil endpoint is dereferenced. -/
def usbWrite (d : USBDeviceW) (data : List Nat) : WriteResult :=
  match d.outEndpoint with
  | none => WriteResult.nilPanic
  | some ep =>
    match ep data with
    | Except.ok n => WriteResult.ok n
    | Except.error e => WriteResult.transportError e

/-- USBDevice.read: forward to the IN endpoint; on any error set the
connected flag to false before returning the error. -/
def usbRead (d : USBDeviceW) (res : Except String (List Nat)) :
    USBDeviceW × Except String (List Nat) :=
  match res with
  | Except.error e => ({ d with connected := false }, Except.error e)
  | Except.ok r => (d, Except.ok r)

/-! ## The Serve event loop -/

/-- How a run of the Serve reader loop ends against a finite script of
transport outcomes: either an error is pushed on the error channel (which
Serve returns to its caller), or the script is exhausted.  Both record the
final connected flag and the reports delivered on the message channel. -/
inductive ServeOutcome where
  | fail (e : Nat) (connected : Bool) (msgs : List (List Nat))
  | scriptEnd (connected : Bool) (msgs : List (List Nat))
  deriving DecidableEq, Repr

/-- The connected phase of the Serve reader goroutine: perform reads one
after the other.  A read error marks the device disconnected and is pushed
on the error channel, ending the goroutine, so Serve returns it; a
successful read delivers the report and the loop continues (the device is
still connected, so the connect branch at the top of the loop stays idle). -/
def serveReads : List (Except Nat (List Nat)) → List (List Nat) → ServeOutcome
  | [], msgs => ServeOutcome.scriptEnd true msgs
  | Except.error e :: _, msgs => ServeOutcome.fail e false msgs
  | Except.ok r :: rs, msgs => serveReads rs (msgs ++ [r])

/-- The Serve reader goroutine, driven by scripts of transport outcomes.
Each iteration starts by connecting when the device is not connected (a
connect error is pushed on the error channel and returned by Serve); once
connected the loop only reads, because a read failure terminates the
goroutine rather than returning to the connect branch. -/
def serveLoop : List (Option Nat) → List (Except Nat (List Nat)) → Bool →
    List (List Nat) → ServeOutcome
  | connects, reads, false, msgs =>
    (match connects with
     | [] => ServeOutcome.scriptEnd false msgs
     | some e :: _ => ServeOutcome.fail e false msgs
     | none :: cs => serveLoop cs reads true msgs)
  | _, reads, true, msgs => serveReads reads msgs

/-! ## Input report processing (Serve message handler) -/

/-- The loop over the 15 stripped report bytes: position i compares
intToButtonState of the byte with the cached state; on a difference the
cache entry is updated and the callback event (i, new state) is recorded.
Returns the updated cache and the dispatched events in loop order. -/
def stepButtons : List BtnState → List Nat → Nat → List BtnState × List (Nat × BtnState)
  | s :: ss, b :: bs, i =>
    let n := intToButtonState b
    let rest := stepButtons ss bs (i + 1)
    if s ≠ n then (n :: rest.1, (i, n) :: rest.2)
    else (s :: rest.1, rest.2)
  | ss, _, _ => (ss, [])

/-- Handling of one successfully read input report in Serve: strip the first
and the last byte, then run the per-button comparison loop from index 0. -/
def handleReport (state : List BtnState) (report : List Nat) :
    List BtnState × List (Nat × BtnState) :=
  stepButtons state ((report.drop 1).dropLast) 0

/-! ## Panel geometry (FillPanel) -/

/-- A Go image.Rectangle; it contains the points with Min.X <= x < Max.X
and Min.Y <= y < Max.Y (Max is exclusive). -/
structure GoRect where
  minX : Nat
  minY : Nat
  maxX : Nat
  maxY : Nat
  deriving DecidableEq, Repr

/-- Go image.Rectangle.Dx: Max.X - Min.X. -/
def rectDx (r : GoRect) : Nat := r.maxX - r.minX

/-- Go image.Rectangle.Dy: Max.Y - Min.Y. -/
def rectDy (r : GoRect) : Nat := r.maxY - r.minY

/-- The rectangle FillPanel slices out for grid position (row, col): the
column position is mirrored (counted from the right edge of the panel). -/
def buttonRect (row col : Nat) : GoRect :=
  { minX := panelWidth - buttonSize - col * buttonSize - col * spacer,
    minY := row * buttonSize + row * spacer,
    maxX := panelWidth - 1 - col * buttonSize - col * spacer,
    maxY := buttonSize - 1 + row * buttonSize + row * spacer }

/-- The rectangle of the button FillPanel fills as counter-th (row-major
counter over the 3 x 5 grid). -/
def buttonRectOfIndex (i : Nat) : GoRect :=
  buttonRect (i / numButtonColumns) (i % numButtonColumns)

/-- Membership in a Go rectangle read with an inclusive Max (the reading
under which the FillPanel rectangles are 72 x 72). -/
def memIncl (r : GoRect) (x y : Nat) : Prop :=
  r.minX ≤ x ∧ x ≤ r.maxX ∧ r.minY ≤ y ∧ y ≤ r.maxY

instance (r : GoRect) (x y : Nat) : Decidable (memIncl r x y) := by
  unfold memIncl; infer_instance

/-- Disjointness of two Go rectangles under the inclusive-Max reading. -/
def disjointIncl (r₁ r₂ : GoRect) : Prop :=
  ∀ x y : Nat, memIncl r₁ x y → ¬ memIncl r₂ x y

/-! ## Helper lemmas on flatMap over a range -/

theorem flatMap_range_succ {α : Type} (f : Nat → List α) (n : Nat) :
    (List.range (n + 1)).flatMap f = (List.range n).flatMap f ++ f n := by
  rw [List.range_succ, List.flatMap_append]
  simp

theorem length_flatMap_range {α : Type} (f : Nat → List α) (m : Nat)
    (hf : ∀ x, (f x).length = m) : ∀ n, ((List.range n).flatMap f).length = n * m := by
  intro n
  induction n with
  | zero => simp
  | succ n ih =>
    rw [flatMap_range_succ, List.length_append, ih, hf]
    ring

theorem getElem?_flatMap_range {α : Type} (f : Nat → List α) (m : Nat)
    (hf : ∀ x, (f x).length = m) :
    ∀ n i j, i < n → j < m → ((List.range n).flatMap f)[m * i + j]? = (f i)[j]? := by
  intro n
  induction n with
  | zero => intro i j hi _; exact absurd hi (Nat.not_lt_zero i)
  | succ n ih =>
    intro i j hi hj
    rw [flatMap_range_succ]
    rcases Nat.lt_or_ge i n with h | h
    · have hlen : ((List.range n).flatMap f).length = n * m :=
        length_flatMap_range f m hf n
      have hlt : m * i + j < ((List.range n).flatMap f).length := by
        rw [hlen]
        calc m * i + j < m * i + m := by omega
          _ = m * (i + 1) := by ring
          _ ≤ m * n := Nat.mul_le_mul_left m h
          _ = n * m := Nat.mul_comm m n
      rw [List.getElem?_append_left hlt]
      exact ih i j h hj
    · have hie : i = n := by omega
      subst hie
      have hlen : ((List.range i).flatMap f).length = i * m :=
        length_flatMap_range f m hf i
      have hge : ((List.range i).flatMap f).length ≤ m * i + j := by
        rw [hlen, Nat.mul_comm i m]
        omega
      rw [List.getElem?_append_right hge, hlen]
      have harith : m * i + j - i * m = j := by
        rw [Nat.mul_comm m i]
        omega
      rw [harith]

/-! ## Length and indexing of the encoded buffer -/

theorem pixelBytes_length (img : GoImage) (row k : Nat) :
    (pixelBytes img row k).length = 3 := rfl

theorem rowFlat_length (img : GoImage) (row : Nat) :
    ((List.range buttonSize).flatMap (fun k => pixelBytes img row k)).length = 216 :=
  length_flatMap_range (fun k => pixelBytes img row k) 3
    (fun k => pixelBytes_length img row k) buttonSize

theorem encodeImage_length (img : GoImage) : (encodeImage img).length = 15552 :=
  length_flatMap_range _ 216 (fun row => rowFlat_length img row) buttonSize

theorem encodeImage_getElem (img : GoImage) (row k j : Nat)
    (hr : row < 72) (hk : k < 72) (hj : j < 3) :
    (encodeImage img)[216 * row + (3 * k + j)]? = (pixelBytes img row k)[j]? := by
  unfold encodeImage
  rw [getElem?_flatMap_range
      (fun r => (List.range buttonSize).flatMap (fun k => pixelBytes img r k)) 216
      (fun r => rowFlat_length img r) buttonSize row (3 * k + j) hr (by omega)]
  exact getElem?_flatMap_range (fun k => pixelBytes img row k) 3
    (fun k => pixelBytes_length img row k) buttonSize k j hk hj

/-! ## Claim theorems -/

/-- Concrete image used by witnesses: pixel (x, y) has channels (x, y, x + y). -/
def witnessImage : GoImage := { width := 72, height := 72, pix := fun x y => (x, y, x + y) }

/-- Claim C2: the encoder walks rows top to bottom and columns right to left
(the pixel stored at pixel position 72 * row + k is the one at column
71 - k of that row), emits each pixel as the byte triple (R, B, G), the
whole buffer holds 5184 pixels (15552 bytes), and the page split keeps bytes
below 7749 (pixels below 2583) in page 1 and the rest in page 2. -/
theorem fillImage_encoding (img : GoImage) (row k : Nat)
    (hr : row < 72) (hk : k < 72) :
    (encodeImage img).length = 15552 ∧
    (encodeImage img)[3 * (72 * row + k)]? = some ((img.pix (71 - k) row).1 % 256) ∧
    (encodeImage img)[3 * (72 * row + k) + 1]? = some ((img.pix (71 - k) row).2.2 % 256) ∧
    (encodeImage img)[3 * (72 * row + k) + 2]? = some ((img.pix (71 - k) row).2.1 % 256) ∧
    fillImagePage1 img ++ fillImagePage2 img = encodeImage img ∧
    (fillImagePage1 img).length = 7749 ∧
    (fillImagePage2 img).length = 7803 := by
  have h0 : 3 * (72 * row + k) = 216 * row + (3 * k + 0) := by ring
  have h1 : 3 * (72 * row + k) + 1 = 216 * row + (3 * k + 1) := by ring
  have h2 : 3 * (72 * row + k) + 2 = 216 * row + (3 * k + 2) := by ring
  refine ⟨encodeImage_length img, ?_, ?_, ?_, ?_, ?_, ?_⟩
  · rw [h0, encodeImage_getElem img row k 0 hr hk (by omega)]; rfl
  · rw [h1, encodeImage_getElem img row k 1 hr hk (by omega)]; rfl
  · rw [h2, encodeImage_getElem img row k 2 hr hk (by omega)]; rfl
  · exact List.take_append_drop _ _
  · rw [fillImagePage1, List.length_take, encodeImage_length]
    decide
  · rw [fillImagePage2, List.length_drop, encodeImage_length]
    decide

/-- Witness for claim C2: the theorem applied to the concrete image at
row 0, column position 0 (pixel at column 71). -/
theorem fillImage_encoding_witness :
    (encodeImage witnessImage).length = 15552 ∧
    (encodeImage witnessImage)[0]? = some 71 := by
  have h := fillImage_encoding witnessImage 0 0 (by decide) (by decide)
  refine ⟨h.1, ?_⟩
  simpa [witnessImage] using h.2.1

/-- Counterexample to claim C3: the page 2 payload holds 7803 bytes
(15552 - 7749, that is 2601 pixels), not 7818 bytes as claimed. -/
theorem page2_length_counterexample :
    (fillImagePage2 (uniformImage 0 0 0)).length = 7803 ∧
    (fillImagePage2 (uniformImage 0 0 0)).length ≠ 7818 := by
  have h : (fillImagePage2 (uniformImage 0 0 0)).length = 7803 := by
    rw [fillImagePage2, List.length_drop, encodeImage_length]
    decide
  exact ⟨h, by rw [h]; decide⟩

/-- Claim C3 (amended): the first wire message is the fixed 70-byte header -
index dependent only at byte 5, which carries buttonIndex + 1 - followed by
the 7749-byte page 1 payload, and the second message is the fixed 18-byte
header (byte 5 again buttonIndex + 1) followed by the remaining page 2
payload of 7803 bytes. -/
theorem writeMsg_framing (b : Nat) (hb : b ≤ 14) (payload : List Nat) (img : GoImage) :
    (msg1Header b).length = 70 ∧
    (msg1Header b)[5]? = some (b + 1) ∧
    (msg1Header b).eraseIdx 5 = (msg1Header 0).eraseIdx 5 ∧
    writeMsg1Bytes b payload = msg1Header b ++ payload ∧
    (writeMsg1Bytes b (fillImagePage1 img)).length = 70 + 7749 ∧
    (msg2Header b).length = 18 ∧
    (msg2Header b)[5]? = some (b + 1) ∧
    (msg2Header b).eraseIdx 5 = (msg2Header 0).eraseIdx 5 ∧
    writeMsg2Bytes b payload = msg2Header b ++ payload ∧
    (writeMsg2Bytes b (fillImagePage2 img)).length = 18 + 7803 := by
  have hmod : (b + 1) % 256 = b + 1 := Nat.mod_eq_of_lt (by omega)
  have hp1 : (fillImagePage1 img).length = 7749 := by
    rw [fillImagePage1, List.length_take, encodeImage_length]
    decide
  have hp2 : (fillImagePage2 img).length = 7803 := by
    rw [fillImagePage2, List.length_drop, encodeImage_length]
    decide
  refine ⟨rfl, ?_, rfl, rfl, ?_, rfl, ?_, rfl, rfl, ?_⟩
  · show some ((b + 1) % 256) = some (b + 1)
    rw [hmod]
  · rw [writeMsg1Bytes, List.length_append, hp1]
    rfl
  · show some ((b + 1) % 256) = some (b + 1)
    rw [hmod]
  · rw [writeMsg2Bytes, List.length_append, hp2]
    rfl

/-- Witness for claim C3 at button index 3 and the concrete image. -/
theorem writeMsg_framing_witness :
    (msg1Header 3).length = 70 ∧
    (msg1Header 3)[5]? = some 4 ∧
    (msg2Header 3)[5]? = some 4 ∧
    (writeMsg2Bytes 3 (fillImagePage2 witnessImage)).length = 18 + 7803 := by
  have h := writeMsg_framing 3 (by decide) [] witnessImage
  exact ⟨h.1, h.2.1, h.2.2.2.2.2.2.1, h.2.2.2.2.2.2.2.2.2⟩

/-- Claim C4 evaluation: the Go bound check rejects keyIndex below 0 or
above 15, so index -1 and index 16 fail, indices 0 and 14 pass, but
index 15 also passes and FillImage at 15 goes on to issue its two
transport writes instead of failing first. -/
theorem checkValidKeyIndex_accepts_15 :
    checkValidKeyIndex (-1) = some SDError.invalidKeyIndex ∧
    checkValidKeyIndex 0 = none ∧
    checkValidKeyIndex 14 = none ∧
    checkValidKeyIndex 15 = none ∧
    checkValidKeyIndex 16 = some SDError.invalidKeyIndex ∧
    (∀ k : Fin 15, checkValidKeyIndex (k : Nat) = none) ∧
    (fillImageTrace (-1) (uniformImage 0 0 0)).1 = [] ∧
    (fillImageTrace (-1) (uniformImage 0 0 0)).2 = some SDError.invalidKeyIndex ∧
    (fillImageTrace 15 (uniformImage 0 0 0)).1.length = 2 ∧
    (fillImageTrace 15 (uniformImage 0 0 0)).2 = none := by
  refine ⟨by decide, by decide, by decide, by decide, by decide, by decide,
    ?_, ?_, ?_, ?_⟩
  · rfl
  · rfl
  · rfl
  · rfl

/-- Helper: a run of successful reads delivers every report in order and
ends only with the script. -/
theorem serveReads_all_ok :
    ∀ (oks msgs : List (List Nat)),
      serveReads (oks.map Except.ok) msgs = ServeOutcome.scriptEnd true (msgs ++ oks) := by
  intro oks
  induction oks with
  | nil => intro msgs; simp [serveReads]
  | cons o os ih =>
    intro msgs
    simp only [List.map_cons, serveReads, ih, List.append_assoc, List.singleton_append]

/-- Counterexample to claim C1: with the link initially down, a successful
connect and then a read error numbered 7, the loop terminates at once with
error 7 - it does not consult the next connect outcome (failure 9), so the
surfaced error is the read error, not a reconnect error; and with a
succeeding reconnect available the loop still terminates on the read error
instead of reading the following report. -/
theorem serve_read_error_counterexample :
    serveLoop [none, some 9] [Except.error 7] false [] = ServeOutcome.fail 7 false [] ∧
    serveLoop [none, some 9] [Except.error 7] false [] ≠ ServeOutcome.fail 9 false [] ∧
    serveLoop [none, none] [Except.error 7, Except.ok [1]] false [] =
      ServeOutcome.fail 7 false [] :=
  ⟨rfl, by decide, rfl⟩

/-- Claim C1 (amended): a read error terminates the event loop immediately -
the failed read leaves the link marked disconnected and the read error
itself is surfaced to the caller of Serve; a reconnect attempt happens only
when an iteration starts with the link disconnected, and a failed reconnect
likewise terminates the loop with that reconnect error, while successful
reads deliver their reports and keep the loop running. -/
theorem serve_read_error_behavior :
    ∀ (connects : List (Option Nat)) (reads rs : List (Except Nat (List Nat)))
      (e : Nat) (r : List Nat) (msgs oks : List (List Nat)),
      serveLoop connects (Except.error e :: rs) true msgs =
        ServeOutcome.fail e false msgs ∧
      serveLoop (some e :: connects) reads false msgs =
        ServeOutcome.fail e false msgs ∧
      serveLoop (none :: connects) reads false msgs =
        serveLoop connects reads true msgs ∧
      serveLoop connects (Except.ok r :: rs) true msgs =
        serveLoop connects rs true (msgs ++ [r]) ∧
      serveLoop connects (oks.map Except.ok) true msgs =
        ServeOutcome.scriptEnd true (msgs ++ oks) := by
  intro connects reads rs e r msgs oks
  refine ⟨by simp [serveLoop, serveReads], rfl, rfl, by simp [serveLoop, serveReads], ?_⟩
  simp only [serveLoop]
  exact serveReads_all_ok oks msgs

/-! ## Claim C6: report translation and dispatch -/

/-- The cached state right after construction: 15 released buttons. -/
def allReleased : List BtnState := List.replicate numButtons BtnState.released

/-- The all-zero input report: marker, 15 zero state bytes, marker. -/
def reportAllZero : List Nat := 0xFF :: (List.replicate 15 0 ++ [0xFF])

/-- The report whose state byte at index 3 is 0x01, the rest unchanged. -/
def reportPress3 : List Nat := 0xFF :: ((List.replicate 15 0).set 3 1 ++ [0xFF])

/-- Helper: the state written back by the report loop is the translation of
every byte, and the dispatched events are exactly the positions where the
translation differs from the cache, tagged with the new state, in ascending
position order. -/
theorem stepButtons_state_events (s : List BtnState) :
    ∀ (bs : List Nat) (i : Nat), s.length = bs.length →
      (stepButtons s bs i).1 = bs.map intToButtonState ∧
      (stepButtons s bs i).2 =
        (List.enumFrom i (s.zip bs)).filterMap
          (fun p => if p.2.1 ≠ intToButtonState p.2.2
                    then some (p.1, intToButtonState p.2.2) else none) := by
  induction s with
  | nil =>
    intro bs i h
    cases bs with
    | nil => simp [stepButtons]
    | cons b bs => simp at h
  | cons s ss ih =>
    intro bs i h
    cases bs with
    | nil => simp at h
    | cons b bs =>
      have h' : ss.length = bs.length := by simpa using h
      have ihb := ih bs (i + 1) h'
      by_cases hsb : s = intToButtonState b
      · simp [stepButtons, hsb, ihb.1, ihb.2, List.enumFrom, List.zip]
      · simp [stepButtons, hsb, ihb.1, ihb.2, List.enumFrom, List.zip]

/-- Helper: a report whose translation coincides with the cache leaves the
cache unchanged and dispatches nothing. -/
theorem stepButtons_debounce (s : List BtnState) :
    ∀ (bs : List Nat) (i : Nat), bs.map intToButtonState = s →
      stepButtons s bs i = (s, []) := by
  induction s with
  | nil =>
    intro bs i h
    cases bs with
    | nil => rfl
    | cons b bs => simp at h
  | cons s ss ih =>
    intro bs i h
    cases bs with
    | nil => simp at h
    | cons b bs =>
      rw [List.map_cons] at h
      have h1 : intToButtonState b = s := (List.cons.injEq _ _ _ _ ▸ h).1
      have h2 : List.map intToButtonState bs = ss := (List.cons.injEq _ _ _ _ ▸ h).2
      have := ih bs (i + 1) h2
      simp [stepButtons, ← h1, this]

/-- Claim C6: the event loop strips the framing bytes and translates the 15
state bytes (0 released, non-zero pressed); exactly the positions whose
translation differs from the cache are updated and dispatched, in ascending
order; an identical report dispatches nothing; concretely, the all-zero
report against the initial all-released cache fires no callback, the
follow-up report whose state byte 3 is 0x01 fires exactly (3, pressed), and
repeating that report fires nothing further. -/
theorem serve_report_dispatch :
    (∀ (s : List BtnState) (bs : List Nat) (i : Nat), s.length = bs.length →
        (stepButtons s bs i).1 = bs.map intToButtonState ∧
        (stepButtons s bs i).2 =
          (List.enumFrom i (s.zip bs)).filterMap
            (fun p => if p.2.1 ≠ intToButtonState p.2.2
                      then some (p.1, intToButtonState p.2.2) else none)) ∧
    (∀ (s : List BtnState) (bs : List Nat) (i : Nat),
        bs.map intToButtonState = s → stepButtons s bs i = (s, [])) ∧
    handleReport allReleased reportAllZero = (allReleased, []) ∧
    handleReport allReleased reportPress3 =
      (allReleased.set 3 BtnState.pressed, [(3, BtnState.pressed)]) ∧
    handleReport (allReleased.set 3 BtnState.pressed) reportPress3 =
      (allReleased.set 3 BtnState.pressed, []) :=
  ⟨fun s bs i h => stepButtons_state_events s bs i h,
   fun s bs i h => stepButtons_debounce s bs i h,
   by decide, by decide, by decide⟩

/-- Witness for claim C6: both universally quantified parts applied at
concrete caches and reports. -/
theorem serve_report_dispatch_witness :
    (stepButtons allReleased ((List.replicate 15 0).set 3 1) 0).1 =
      ((List.replicate 15 0).set 3 1).map intToButtonState ∧
    stepButtons allReleased (List.replicate 15 0) 0 = (allReleased, []) :=
  ⟨(serve_report_dispatch.1 allReleased ((List.replicate 15 0).set 3 1) 0 (by decide)).1,
   serve_report_dispatch.2.1 allReleased (List.replicate 15 0) 0 (by decide)⟩

/-- Claim C7 evaluation: whenever a serial filter is supplied, NewStreamDeck
reads the serial number from the freshly allocated, never connected device,
whose gousb handle is still nil - a nil pointer dereference - regardless of
the serial value and of how the later connect would have gone. -/
theorem newStreamDeck_serial_nil_deref :
    ∀ (s : String) (connectRes : Option String) (f : Int → Except String Unit),
      newStreamDeck connectRes f [s] = GoResult.panic ("nil pointer dereference") := by
  intro s cr f
  rfl

/-- A 72 x 100 image: width matches ButtonSize, height does not. -/
def tallImage : GoImage := { width := 72, height := 100, pix := fun _ _ => (0, 0, 0) }

/-- A 30 x 30 image: width differs from ButtonSize. -/
def smallImage : GoImage := { width := 30, height := 30, pix := fun _ _ => (0, 0, 0) }

/-- Claim C8 evaluation: FillImage resizes only when the width differs from
72 - the 72 x 100 image is left untouched (its height stays 100), so the
encoder does not always read from a 72 x 72 image; a 30 x 30 image is
resized to 72 x 72, and any image of width 72 is passed through unchanged
whatever its height. -/
theorem fillImage_resize_checks_width_only :
    (fillImageScaled tallImage).width = 72 ∧
    (fillImageScaled tallImage).height = 100 ∧
    (fillImageScaled tallImage).height ≠ 72 ∧
    (fillImageScaled smallImage).width = 72 ∧
    (fillImageScaled smallImage).height = 72 ∧
    (∀ (h : Nat) (p : Nat → Nat → Nat × Nat × Nat),
        fillImageScaled { width := 72, height := h, pix := p } =
          { width := 72, height := h, pix := p }) :=
  ⟨rfl, rfl, by decide, rfl, rfl, fun h p => rfl⟩

/-- A disconnected link whose OUT endpoint is still populated (as it is
after any successful Connect followed by a read failure); the endpoint
itself would transfer successfully. -/
def discLink : USBDeviceW :=
  { connected := false, outEndpoint := some (fun data => Except.ok data.length) }

/-- Counterexample to claim C9: on a disconnected link the write is still
forwarded to the OUT endpoint and succeeds - no transport error is raised
for the disconnected state. -/
theorem usbWrite_disconnected_counterexample :
    discLink.connected = false ∧
    usbWrite discLink [1, 2, 3] = WriteResult.ok 3 :=
  ⟨rfl, rfl⟩

/-- Claim C9 (amended): the device-level write never consults the connected
flag - it forwards every byte sequence straight to the OUT endpoint and
returns exactly the endpoint transfer result (failing only when the
transfer fails, and dereferencing nil when no endpoint was ever populated);
a failed read, by contrast, marks the link disconnected before returning. -/
theorem usbWrite_unconditional :
    ∀ (ep : List Nat → Except String Nat) (data : List Nat) (b₁ b₂ : Bool)
      (e : String) (res : Except String (List Nat)),
      usbWrite { connected := b₁, outEndpoint := some ep } data =
        usbWrite { connected := b₂, outEndpoint := some ep } data ∧
      usbWrite { connected := b₁, outEndpoint := some ep } data =
        (match ep data with
         | Except.ok n => WriteResult.ok n
         | Except.error er => WriteResult.transportError er) ∧
      usbWrite { connected := b₁, outEndpoint := none } data = WriteResult.nilPanic ∧
      (usbRead { connected := b₁, outEndpoint := some ep } (Except.error e)).1.connected
        = false ∧
      (usbRead { connected := b₁, outEndpoint := some ep } res).2 = res := by
  intro ep data b₁ b₂ e res
  refine ⟨rfl, rfl, rfl, rfl, ?_⟩
  cases res <;> rfl

/-- Claim C10: ClearAllBtns calls the per-button clear on 14 down to 0,
ignoring every per-button result (the sweep and its order are the same for
every outcome oracle, and ClearAllBtns exposes no error); Close returns
only the device close result, and the constructor succeeds no matter what
the clears returned. -/
theorem clearAllBtns_sweep :
    ∀ (f g : Int → Except String Unit) (devClose : Except String Unit),
      (clearAllBtns f).map Prod.fst =
        [14, 13, 12, 11, 10, 9, 8, 7, 6, 5, 4, 3, 2, 1, 0] ∧
      (clearAllBtns f).map Prod.fst = (clearAllBtns g).map Prod.fst ∧
      (clearAllBtns f).length = 15 ∧
      closeTrace f devClose = (clearAllBtns f, devClose) ∧
      newStreamDeck none f [] = GoResult.ok (clearAllBtns f) := by
  intro f g devClose
  exact ⟨rfl, rfl, rfl, rfl, rfl⟩

/-- Counterexample to claim C5: the Go rectangle FillPanel computes for the
top-left grid position has Dx = Dy = 71, not 72 (image.Rectangle treats Max
as exclusive and the code sets Max to Min + 71), and the full panel extent
is 436 x 254 pixels, not 360 x 216 as the claim evaluates its own formulas. -/
theorem fillPanel_rect_counterexample :
    rectDx (buttonRect 0 0) = 71 ∧
    rectDx (buttonRect 0 0) ≠ 72 ∧
    rectDy (buttonRect 0 0) = 71 ∧
    panelWidth = 436 ∧
    panelWidth ≠ 360 ∧
    panelHeight = 254 ∧
    panelHeight ≠ 216 := by
  refine ⟨?_, ?_, ?_, ?_, ?_, ?_, ?_⟩ <;> decide

/-- Claim C5 (amended): the 15 rectangles FillPanel slices are mirrored
column-wise (grid column col sits at horizontal slot 4 - col), each is
71 x 71 under Go exclusive-Max semantics (72 x 72 only when Max is read
inclusively), they are mutually non-overlapping, and under the inclusive
reading their union together with the 19-pixel spacer bands (the points
whose coordinate mod 91 reaches 72) tiles the whole panel extent of
width 5 * 72 + 4 * 19 = 436 and height 3 * 72 + 2 * 19 = 254 exactly. -/
theorem fillPanel_rect_geometry :
    (∀ row col, row < 3 → col < 5 →
        buttonRect row col =
          { minX := 91 * (4 - col), minY := 91 * row,
            maxX := 91 * (4 - col) + 71, maxY := 91 * row + 71 }) ∧
    (∀ row col, row < 3 → col < 5 →
        rectDx (buttonRect row col) = 71 ∧ rectDy (buttonRect row col) = 71) ∧
    (∀ i j, i < 15 → j < 15 → i ≠ j →
        disjointIncl (buttonRectOfIndex i) (buttonRectOfIndex j)) ∧
    (∀ x y, x < panelWidth → y < panelHeight →
        (72 ≤ x % 91 ∨ 72 ≤ y % 91) ∨
        ∃ row col, row < 3 ∧ col < 5 ∧ memIncl (buttonRect row col) x y) ∧
    (∀ row col x y, row < 3 → col < 5 → memIncl (buttonRect row col) x y →
        x < panelWidth ∧ y < panelHeight ∧ x % 91 ≤ 71 ∧ y % 91 ≤ 71) := by
  refine ⟨?_, ?_, ?_, ?_, ?_⟩
  · intro row col hr hc
    simp only [buttonRect, panelWidth, buttonSize, spacer, numButtonColumns,
      GoRect.mk.injEq]
    refine ⟨?_, ?_, ?_, ?_⟩ <;> omega
  · intro row col hr hc
    simp only [rectDx, rectDy, buttonRect, panelWidth, buttonSize, spacer,
      numButtonColumns]
    omega
  · intro i j hi hj hne x y h1 h2
    simp only [memIncl, buttonRectOfIndex, buttonRect, panelWidth, buttonSize,
      spacer, numButtonColumns] at h1 h2
    omega
  · intro x y hx hy
    rw [show panelWidth = 436 from rfl] at hx
    rw [show panelHeight = 254 from rfl] at hy
    rcases Nat.lt_or_ge (x % 91) 72 with hxm | hxm
    · rcases Nat.lt_or_ge (y % 91) 72 with hym | hym
      · refine Or.inr ⟨y / 91, 4 - x / 91, by omega, by omega, ?_⟩
        simp only [memIncl, buttonRect, panelWidth, buttonSize, spacer,
          numButtonColumns]
        refine ⟨?_, ?_, ?_, ?_⟩ <;> omega
      · exact Or.inl (Or.inr hym)
    · exact Or.inl (Or.inl hxm)
  · intro row col x y hr hc hm
    simp only [memIncl, buttonRect, panelWidth, buttonSize, spacer,
      numButtonColumns] at hm
    rw [show panelWidth = 436 from rfl, show panelHeight = 254 from rfl]
    refine ⟨?_, ?_, ?_, ?_⟩ <;> omega

/-- Witness for claim C5: the geometry theorem applied to the top-left grid
position and to the panel point (0, 0). -/
theorem fillPanel_rect_geometry_witness :
    buttonRect 0 0 = { minX := 364, minY := 0, maxX := 435, maxY := 71 } ∧
    rectDx (buttonRect 0 0) = 71 ∧
    ((72 ≤ 0 % 91 ∨ 72 ≤ 0 % 91) ∨
      ∃ row col, row < 3 ∧ col < 5 ∧ memIncl (buttonRect row col) 0 0) := by
  have h1 := fillPanel_rect_geometry.1 0 0 (by decide) (by decide)
  have h2 := (fillPanel_rect_geometry.2.1 0 0 (by decide) (by decide)).1
  have h4 := fillPanel_rect_geometry.2.2.2.1 0 0 (by decide) (by decide)
  exact ⟨by simpa using h1, h2, h4⟩
